import Mathlib

/-!
Shallow embedding of the BBO packet decoding core of
`src/host/bbo_receiver.c` (an XDMA host receiver for 48-byte BBO
telemetry packets), together with theorems settling the spec claims.

Bytes are modelled as `Nat` values below 256 and 32-bit fields as `Nat`
values below `2^32`; 32-bit wraparound is written explicitly as `% 2^32`.
The C program's decode path is:
  - the packed struct `BboPacket` (lines 44-58), read directly from the
    wire buffer: field extraction at fixed offsets, little-endian;
  - the read loop in `main` (lines 245-265): a read of a size other than
    48 is rejected with a "Partial read" warning and the buffer is never
    interpreted;
  - `print_bbo` (lines 114-138): the latency computation guarded by
    `ts_t4 > ts_t1 && ts_t1 != 0` with `latency_cycles * 4` in unsigned
    32-bit arithmetic, and the padding sentinel check printing a WARNING
    (the only validation warning the program emits);
  - `hexdump` (lines 140-153): display-only substitution of bytes outside
    the printable range with a dot.
-/

namespace BboReceiver

/-- Little-endian read of an unsigned 32-bit integer at byte offset `off`
of the buffer, exactly as the packed struct layout of `BboPacket`
(lines 44-58) interprets bytes on the little-endian host. -/
def readLE32 (buf : List Nat) (off : Nat) : Nat :=
  buf.getD off 0 + 256 * buf.getD (off + 1) 0 +
    65536 * buf.getD (off + 2) 0 + 16777216 * buf.getD (off + 3) 0

/-- The decoded record: the fields of the packed C struct `BboPacket`
(src/host/bbo_receiver.c lines 44-58). `symbol` is the raw 8 bytes at
offsets 0-8; every other field is an unsigned 32-bit integer. -/
structure BboPacket where
  symbol : List Nat
  bid_price : Nat
  bid_size : Nat
  ask_price : Nat
  ask_size : Nat
  spread : Nat
  ts_t1 : Nat
  ts_t2 : Nat
  ts_t3 : Nat
  ts_t4 : Nat
  padding : Nat
deriving Repr, DecidableEq

/-- `BBO_PACKET_SIZE` from the C source (line 36). -/
def BBO_PACKET_SIZE : Nat := 48

/-- The padding sentinel `0xDEADBEEF` checked at line 135. -/
def SENTINEL : Nat := 0xDEADBEEF

/-- Field codec: maps a 48-byte buffer to the struct fields at the fixed
offsets of the packed `BboPacket` layout, little-endian, with no
interpretation or validation.  This is the memory reinterpretation the C
program performs by reading the wire bytes directly into the packed
struct (lines 44-58, filled by `ReadFile` at line 246). -/
def decode_fields (buf : List Nat) : BboPacket :=
  { symbol := buf.take 8
    bid_price := readLE32 buf 8
    bid_size := readLE32 buf 12
    ask_price := readLE32 buf 16
    ask_size := readLE32 buf 20
    spread := readLE32 buf 24
    ts_t1 := readLE32 buf 28
    ts_t2 := readLE32 buf 32
    ts_t3 := readLE32 buf 36
    ts_t4 := readLE32 buf 40
    padding := readLE32 buf 44 }

/-- Validation warnings.  The C program emits exactly one kind of
validation warning: the padding-sentinel WARNING printed by `print_bbo`
at lines 134-137.  The constructors `NonPrintableSymbol` and
`LatencyOverflow` name the warnings the specification's taxonomy lists;
they are needed to state the spec's claims, and the theorems below settle
whether the code ever produces them. -/
inductive Warning
  | BadSentinel (actual : Nat)
  | NonPrintableSymbol
  | LatencyOverflow
deriving Repr, DecidableEq

/-- Packet validator: the checks `print_bbo` performs on a decoded
record.  The only check in the code is the sentinel comparison at line
135, which prints the WARNING carrying the actual padding value; the
record has already been printed, so the warning is non-fatal. -/
def validate (p : BboPacket) : List Warning :=
  if p.padding ≠ SENTINEL then [Warning.BadSentinel p.padding] else []

/-- Decode errors: a buffer of the wrong size is rejected by the read
loop ("Partial read N bytes (expected 48)", lines 258-261) without the
field offsets ever being interpreted. -/
inductive DecodeError
  | SizeMismatch (expected : Nat) (actual : Nat)
deriving Repr, DecidableEq

/-- Packet decoder (orchestrator): the composite behaviour of the read
loop and `print_bbo` on one buffer.  A buffer whose length differs from
48 is rejected (lines 258-261) and never interpreted; otherwise the
fields are decoded from the packed layout and the validator's warnings
are attached. -/
def decode (buf : List Nat) :
    Except DecodeError (BboPacket × List Warning) :=
  if buf.length ≠ BBO_PACKET_SIZE then
    Except.error (DecodeError.SizeMismatch BBO_PACKET_SIZE buf.length)
  else
    Except.ok (decode_fields buf, validate (decode_fields buf))

/-- The clock period in nanoseconds: the constant `4` hard-coded at line
129 ("Assuming 250 MHz clock (Gen2): 1 cycle = 4 ns"). -/
def clock_period_ns : Nat := 4

/-- Unsigned 32-bit subtraction `a - b` as the C program computes it on
`uint32_t` operands (modulo `2^32`). -/
def sub32 (a b : Nat) : Nat := (a + 2 ^ 32 - b) % 2 ^ 32

/-- Unsigned 32-bit multiplication as the C program computes it on
`uint32_t` operands (modulo `2^32`). -/
def mul32 (a b : Nat) : Nat := (a * b) % 2 ^ 32

/-- The latency report derived at lines 127-129: `latency_cycles` and
`latency_ns`, both `uint32_t`. -/
structure LatencyReport where
  cycles : Nat
  nanoseconds : Nat
deriving Repr, DecidableEq

/-- Latency calculator: lines 126-131 of `print_bbo`.  The report is
produced only under the guard `ts_t4 > ts_t1 && ts_t1 != 0`; inside the
guard, `latency_cycles = ts_t4 - ts_t1` and
`latency_ns = latency_cycles * 4`, both in unsigned 32-bit arithmetic. -/
def compute_latency (p : BboPacket) : Option LatencyReport :=
  if p.ts_t1 < p.ts_t4 ∧ p.ts_t1 ≠ 0 then
    some { cycles := sub32 p.ts_t4 p.ts_t1
           nanoseconds := mul32 (sub32 p.ts_t4 p.ts_t1) clock_period_ns }
  else none

/-- The display substitution of `hexdump` (line 149): a byte renders as
itself when in the printable range `[0x20, 0x7E]` and as `.` (byte 46)
otherwise.  The C variable is a (signed) `char`, so bytes at and above
128 are negative there and fail `c >= 32`; on bytes 0-255 this agrees
with the unsigned comparison used here. -/
def displayChar (b : Nat) : Nat := if 32 ≤ b ∧ b < 127 then b else 46

/-- The little-endian 4-byte encoding of an unsigned 32-bit value, used
to re-serialize a decoded packet. -/
def le32bytes (n : Nat) : List Nat :=
  [n % 256, n / 256 % 256, n / 65536 % 256, n / 16777216 % 256]

/-- Encoder: writes a packet's fields back into a 48-byte buffer at the
documented offsets, little-endian — the inverse direction of the packed
struct layout. -/
def encode (p : BboPacket) : List Nat :=
  p.symbol ++ le32bytes p.bid_price ++ le32bytes p.bid_size ++
    le32bytes p.ask_price ++ le32bytes p.ask_size ++ le32bytes p.spread ++
    le32bytes p.ts_t1 ++ le32bytes p.ts_t2 ++ le32bytes p.ts_t3 ++
    le32bytes p.ts_t4 ++ le32bytes p.padding

/-- Well-formedness of a decoded packet: 8 symbol bytes, each a byte,
and every 32-bit field below `2^32`. -/
def WfPacket (p : BboPacket) : Prop :=
  p.symbol.length = 8 ∧ (∀ b ∈ p.symbol, b < 256) ∧
    p.bid_price < 2 ^ 32 ∧ p.bid_size < 2 ^ 32 ∧ p.ask_price < 2 ^ 32 ∧
    p.ask_size < 2 ^ 32 ∧ p.spread < 2 ^ 32 ∧ p.ts_t1 < 2 ^ 32 ∧
    p.ts_t2 < 2 ^ 32 ∧ p.ts_t3 < 2 ^ 32 ∧ p.ts_t4 < 2 ^ 32 ∧
    p.padding < 2 ^ 32

/-- Equality of decode results is decidable, so concrete decodes can be
checked by evaluation. -/
instance instDecEqDecodeResult :
    DecidableEq (Except DecodeError (BboPacket × List Warning)) :=
  fun a b =>
    match a, b with
    | Except.error e1, Except.error e2 =>
      if h : e1 = e2 then isTrue (by rw [h]) else isFalse (by simp [h])
    | Except.ok x1, Except.ok x2 =>
      if h : x1 = x2 then isTrue (by rw [h]) else isFalse (by simp [h])
    | Except.error _, Except.ok _ => isFalse (by simp)
    | Except.ok _, Except.error _ => isFalse (by simp)

/-- A packet in which the 32-bit cycle counter wrapped once between T1
and T4: the raw `ts_t4` (100) is numerically smaller than `ts_t1`
(4294967000), and the modulo-2^32 difference is 396. -/
def wrapPacket : BboPacket :=
  { symbol := List.replicate 8 0, bid_price := 0, bid_size := 0,
    ask_price := 0, ask_size := 0, spread := 0, ts_t1 := 4294967000,
    ts_t2 := 0, ts_t3 := 0, ts_t4 := 100, padding := SENTINEL }

/-- A 48-byte frame whose timestamps make the latency multiplication
overflow 32 bits: `ts_t1 = 1` (offset 28) and `ts_t4 = 0x40000001`
(offset 40), so `cycles = 2^30` and `cycles * 4 = 2^32`; the sentinel
bytes are the correct `EF BE AD DE`. -/
def overflowFrame : List Nat :=
  List.replicate 28 0 ++ [1, 0, 0, 0] ++ List.replicate 8 0 ++
    [1, 0, 0, 64] ++ [239, 190, 173, 222]

/-- A 48-byte frame whose first symbol byte is `0x01` — nonzero and
outside the printable range `[0x20, 0x7E]` — with a correct sentinel. -/
def nonPrintableFrame : List Nat :=
  [1] ++ List.replicate 43 0 ++ [239, 190, 173, 222]

end BboReceiver

namespace BboReceiver

/-- Reading back the four little-endian bytes of an unsigned 32-bit
value recovers the value. -/
lemma le32_readback (n : Nat) (h : n < 2 ^ 32) :
    n % 256 + 256 * (n / 256 % 256) + 65536 * (n / 65536 % 256) +
      16777216 * (n / 16777216 % 256) = n := by
  have h1 : n / 65536 = n / 256 / 256 := by
    rw [Nat.div_div_eq_div_mul]
  have h2 : n / 16777216 = n / 256 / 256 / 256 := by
    rw [Nat.div_div_eq_div_mul, Nat.div_div_eq_div_mul]
  rw [h1, h2]
  omega

/-- A symbol field of length eight is a literal eight-element list: the
shape on which the encoder's byte layout can be computed. -/
lemma list_length_eight (l : List Nat) (h : l.length = 8) :
    ∃ c0 c1 c2 c3 c4 c5 c6 c7, l = [c0, c1, c2, c3, c4, c5, c6, c7] :=
  match l, h with
  | [s0, s1, s2, s3, s4, s5, s6, s7], _ =>
    ⟨s0, s1, s2, s3, s4, s5, s6, s7, rfl⟩
  | [], hc => absurd hc (by simp)
  | [_], hc => absurd hc (by simp)
  | [_, _], hc => absurd hc (by simp)
  | [_, _, _], hc => absurd hc (by simp)
  | [_, _, _, _], hc => absurd hc (by simp)
  | [_, _, _, _, _], hc => absurd hc (by simp)
  | [_, _, _, _, _, _], hc => absurd hc (by simp)
  | [_, _, _, _, _, _, _], hc => absurd hc (by simp)
  | v0 :: v1 :: v2 :: v3 :: v4 :: v5 :: v6 :: v7 :: v8 :: vrest, hc =>
    absurd hc (by
      intro hc
      simp only [List.length_cons] at hc
      omega)

/-- On an explicit 48-byte list, `decode_fields` computes exactly the
raw symbol bytes and the little-endian 32-bit values at the documented
offsets. -/
lemma decode_fields_cons
    (b0 b1 b2 b3 b4 b5 b6 b7 b8 b9 b10 b11 b12 b13 b14 b15
     b16 b17 b18 b19 b20 b21 b22 b23 b24 b25 b26 b27 b28 b29 b30 b31
     b32 b33 b34 b35 b36 b37 b38 b39 b40 b41 b42 b43 b44 b45 b46 b47 :
      Nat) :
    decode_fields
      [b0, b1, b2, b3, b4, b5, b6, b7, b8, b9, b10, b11, b12, b13, b14,
       b15, b16, b17, b18, b19, b20, b21, b22, b23, b24, b25, b26, b27,
       b28, b29, b30, b31, b32, b33, b34, b35, b36, b37, b38, b39, b40,
       b41, b42, b43, b44, b45, b46, b47] =
    { symbol := [b0, b1, b2, b3, b4, b5, b6, b7]
      bid_price := b8 + 256 * b9 + 65536 * b10 + 16777216 * b11
      bid_size := b12 + 256 * b13 + 65536 * b14 + 16777216 * b15
      ask_price := b16 + 256 * b17 + 65536 * b18 + 16777216 * b19
      ask_size := b20 + 256 * b21 + 65536 * b22 + 16777216 * b23
      spread := b24 + 256 * b25 + 65536 * b26 + 16777216 * b27
      ts_t1 := b28 + 256 * b29 + 65536 * b30 + 16777216 * b31
      ts_t2 := b32 + 256 * b33 + 65536 * b34 + 16777216 * b35
      ts_t3 := b36 + 256 * b37 + 65536 * b38 + 16777216 * b39
      ts_t4 := b40 + 256 * b41 + 65536 * b42 + 16777216 * b43
      padding := b44 + 256 * b45 + 65536 * b46 + 16777216 * b47 } := by
  rfl

/-- Claim C1: for every 48-byte buffer, `decode_fields` returns `symbol`
equal to the raw bytes at offsets 0-8 and each 32-bit field equal to the
little-endian unsigned interpretation of the bytes at its documented
offset (8-12, 12-16, ..., 44-48), with no other interpretation or
validation applied: the output is completely determined by these raw
readings. -/
theorem decode_fields_offsets
    (b0 b1 b2 b3 b4 b5 b6 b7 b8 b9 b10 b11 b12 b13 b14 b15
     b16 b17 b18 b19 b20 b21 b22 b23 b24 b25 b26 b27 b28 b29 b30 b31
     b32 b33 b34 b35 b36 b37 b38 b39 b40 b41 b42 b43 b44 b45 b46 b47 :
      Nat) :
    decode_fields
      [b0, b1, b2, b3, b4, b5, b6, b7, b8, b9, b10, b11, b12, b13, b14,
       b15, b16, b17, b18, b19, b20, b21, b22, b23, b24, b25, b26, b27,
       b28, b29, b30, b31, b32, b33, b34, b35, b36, b37, b38, b39, b40,
       b41, b42, b43, b44, b45, b46, b47] =
    { symbol := [b0, b1, b2, b3, b4, b5, b6, b7]
      bid_price := b8 + 256 * b9 + 65536 * b10 + 16777216 * b11
      bid_size := b12 + 256 * b13 + 65536 * b14 + 16777216 * b15
      ask_price := b16 + 256 * b17 + 65536 * b18 + 16777216 * b19
      ask_size := b20 + 256 * b21 + 65536 * b22 + 16777216 * b23
      spread := b24 + 256 * b25 + 65536 * b26 + 16777216 * b27
      ts_t1 := b28 + 256 * b29 + 65536 * b30 + 16777216 * b31
      ts_t2 := b32 + 256 * b33 + 65536 * b34 + 16777216 * b35
      ts_t3 := b36 + 256 * b37 + 65536 * b38 + 16777216 * b39
      ts_t4 := b40 + 256 * b41 + 65536 * b42 + 16777216 * b43
      padding := b44 + 256 * b45 + 65536 * b46 + 16777216 * b47 } := by
  rfl

end BboReceiver

namespace BboReceiver

/-- Claim C2: the latency contract of `print_bbo` lines 126-131.  A
report is produced exactly when `ts_t4 > ts_t1` and `ts_t1 != 0`; inside
the guard the cycle count is the plain difference `ts_t4 - ts_t1` (the
guard rules out wraparound in the subtraction) and the nanosecond value
is `cycles * clock_period_ns` in unsigned 32-bit arithmetic, with
`clock_period_ns = 4` the hard-coded constant; otherwise latency is
unavailable (`none`), covering both `ts_t1 = 0` and `ts_t4 <= ts_t1`. -/
theorem compute_latency_contract (p : BboPacket)
    (h1 : p.ts_t1 < 2 ^ 32) (h4 : p.ts_t4 < 2 ^ 32) :
    compute_latency p =
      if p.ts_t1 < p.ts_t4 ∧ p.ts_t1 ≠ 0 then
        some { cycles := p.ts_t4 - p.ts_t1
               nanoseconds := (p.ts_t4 - p.ts_t1) * clock_period_ns % 2 ^ 32 }
      else none := by
  unfold compute_latency
  split
  · next hc =>
      have hs : sub32 p.ts_t4 p.ts_t1 = p.ts_t4 - p.ts_t1 := by
        unfold sub32
        omega
      rw [hs]
      rfl
  · rfl

/-- Witness for C2 at the spec's Example 2: `ts_parse = 1000`,
`ts_tx_start = 1100` yields `cycles = 100`, `nanoseconds = 400`. -/
theorem compute_latency_contract_witness :
    compute_latency
      { symbol := [65, 65, 65, 65, 0, 0, 0, 0], bid_price := 0,
        bid_size := 0, ask_price := 0, ask_size := 0, spread := 0,
        ts_t1 := 1000, ts_t2 := 0, ts_t3 := 0, ts_t4 := 1100,
        padding := SENTINEL } =
      some { cycles := 100, nanoseconds := 400 } := by
  have h := compute_latency_contract
    { symbol := [65, 65, 65, 65, 0, 0, 0, 0], bid_price := 0,
      bid_size := 0, ask_price := 0, ask_size := 0, spread := 0,
      ts_t1 := 1000, ts_t2 := 0, ts_t3 := 0, ts_t4 := 1100,
      padding := SENTINEL } (by decide) (by decide)
  rw [h]
  decide

/-- Claim C3: a buffer whose length is not 48 is rejected with a size
mismatch carrying `expected = 48` and the buffer's actual length; no
packet is produced and no field offset is interpreted (the error branch
returns before `decode_fields` is involved, matching the read loop's
"Partial read" rejection at lines 258-261). -/
theorem decode_size_mismatch (buf : List Nat) (h : buf.length ≠ 48) :
    decode buf =
      Except.error (DecodeError.SizeMismatch 48 buf.length) := by
  unfold decode BBO_PACKET_SIZE
  rw [if_pos h]

/-- Witness for C3 at the spec's Example 4: a 47-byte buffer yields
`SizeMismatch` with `expected = 48`, `actual = 47`. -/
theorem decode_size_mismatch_witness :
    decode (List.replicate 47 0) =
      Except.error (DecodeError.SizeMismatch 48 47) := by
  have h := decode_size_mismatch (List.replicate 47 0) (by decide)
  simpa using h

/-- Claim C4: the sentinel check is non-fatal.  Every 48-byte buffer
decodes successfully to the full record; a `BadSentinel` warning carrying
the actual padding value is attached exactly when the padding field
differs from `0xDEADBEEF`, and any `BadSentinel` warning that appears
carries the record's own padding value. -/
theorem decode_bad_sentinel (buf : List Nat) (h : buf.length = 48) :
    decode buf =
      Except.ok (decode_fields buf, validate (decode_fields buf)) ∧
    (Warning.BadSentinel (decode_fields buf).padding ∈
        validate (decode_fields buf) ↔
      (decode_fields buf).padding ≠ SENTINEL) ∧
    (∀ v, Warning.BadSentinel v ∈ validate (decode_fields buf) →
      v = (decode_fields buf).padding) := by
  refine ⟨?_, ?_, ?_⟩
  · unfold decode BBO_PACKET_SIZE
    rw [if_neg (by omega)]
  · by_cases hp : (decode_fields buf).padding = SENTINEL
    · simp [validate, hp]
    · simp [validate, hp]
  · intro v hv
    by_cases hp : (decode_fields buf).padding = SENTINEL
    · simp [validate, hp] at hv
    · simp [validate, hp] at hv
      exact hv

/-- Witness for C4 at the spec's Example 3: an all-zero 48-byte buffer
(padding bytes `0x00000000`) decodes successfully and carries a
`BadSentinel 0` warning. -/
theorem decode_bad_sentinel_witness :
    decode (List.replicate 48 0) =
      Except.ok (decode_fields (List.replicate 48 0),
        validate (decode_fields (List.replicate 48 0))) ∧
    validate (decode_fields (List.replicate 48 0)) =
      [Warning.BadSentinel 0] := by
  have h := decode_bad_sentinel (List.replicate 48 0) (by decide)
  exact ⟨h.1, by decide⟩

end BboReceiver

namespace BboReceiver

/-- Counterexample to claim C5: after a single wraparound (raw `ts_t4`
numerically below `ts_t1`) the modulo-2^32 difference is well defined
(396 here), yet the code reports latency unavailable — the guard
`ts_t4 > ts_t1` fails, so no modulo-2^32 subtraction is performed. -/
theorem compute_latency_wrap_counterexample :
    wrapPacket.ts_t4 < wrapPacket.ts_t1 ∧
    sub32 wrapPacket.ts_t4 wrapPacket.ts_t1 = 396 ∧
    compute_latency wrapPacket = none := by decide

/-- Claim C5 (amended): whenever `ts_t4 <= ts_t1` as raw 32-bit values —
in particular after a single counter wraparound — `compute_latency`
reports unavailable rather than the modulo-2^32 difference; the
modulo-2^32 subtraction is only ever evaluated under the guard
`ts_t4 > ts_t1`, where it coincides with plain subtraction. -/
theorem compute_latency_no_wrap (p : BboPacket)
    (h1 : p.ts_t1 < 2 ^ 32) (h4 : p.ts_t4 < 2 ^ 32) :
    (p.ts_t4 ≤ p.ts_t1 → compute_latency p = none) ∧
    (p.ts_t1 < p.ts_t4 → p.ts_t1 ≠ 0 →
      compute_latency p =
        some { cycles := sub32 p.ts_t4 p.ts_t1
               nanoseconds :=
                 mul32 (sub32 p.ts_t4 p.ts_t1) clock_period_ns } ∧
      sub32 p.ts_t4 p.ts_t1 = p.ts_t4 - p.ts_t1) := by
  constructor
  · intro hle
    unfold compute_latency
    rw [if_neg (by omega)]
  · intro hlt hne
    constructor
    · unfold compute_latency
      rw [if_pos ⟨hlt, hne⟩]
    · unfold sub32
      omega

/-- Witness for C5 (amended) at a concrete non-monotonic pair, the
spec's Example 5 shape: `ts_t1 = 100`, `ts_t4 = 50` is unavailable. -/
theorem compute_latency_no_wrap_witness :
    compute_latency
      { symbol := List.replicate 8 0, bid_price := 0, bid_size := 0,
        ask_price := 0, ask_size := 0, spread := 0, ts_t1 := 100,
        ts_t2 := 0, ts_t3 := 0, ts_t4 := 50, padding := SENTINEL } =
      none := by
  exact (compute_latency_no_wrap
    { symbol := List.replicate 8 0, bid_price := 0, bid_size := 0,
      ask_price := 0, ask_size := 0, spread := 0, ts_t1 := 100,
      ts_t2 := 0, ts_t3 := 0, ts_t4 := 50, padding := SENTINEL }
    (by decide) (by decide)).1 (by decide)

/-- Claim C8: codec round-trip.  Writing a well-formed packet's fields
back into a 48-byte buffer at the documented offsets, little-endian, and
decoding that buffer again recovers the packet bit-identically:
`decode_fields` is a left inverse of `encode`. -/
theorem encode_decode_roundtrip (p : BboPacket) (h : WfPacket p) :
    decode_fields (encode p) = p := by
  obtain ⟨sym, bp, bs, ap, aq, sp, t1, t2, t3, t4, pd⟩ := p
  unfold WfPacket at h
  obtain ⟨hlen, hbytes, hbp, hbs, hap, haq, hsp, h1, h2, h3, h4, hpd⟩ := h
  obtain ⟨c0, c1, c2, c3, c4, c5, c6, c7, hsym⟩ :=
    list_length_eight sym hlen
  subst hsym
  have he : encode
      (BboPacket.mk [c0, c1, c2, c3, c4, c5, c6, c7]
        bp bs ap aq sp t1 t2 t3 t4 pd) =
      [c0, c1, c2, c3, c4, c5, c6, c7,
       bp % 256, bp / 256 % 256, bp / 65536 % 256, bp / 16777216 % 256,
       bs % 256, bs / 256 % 256, bs / 65536 % 256, bs / 16777216 % 256,
       ap % 256, ap / 256 % 256, ap / 65536 % 256, ap / 16777216 % 256,
       aq % 256, aq / 256 % 256, aq / 65536 % 256, aq / 16777216 % 256,
       sp % 256, sp / 256 % 256, sp / 65536 % 256, sp / 16777216 % 256,
       t1 % 256, t1 / 256 % 256, t1 / 65536 % 256, t1 / 16777216 % 256,
       t2 % 256, t2 / 256 % 256, t2 / 65536 % 256, t2 / 16777216 % 256,
       t3 % 256, t3 / 256 % 256, t3 / 65536 % 256, t3 / 16777216 % 256,
       t4 % 256, t4 / 256 % 256, t4 / 65536 % 256, t4 / 16777216 % 256,
       pd % 256, pd / 256 % 256, pd / 65536 % 256, pd / 16777216 % 256] :=
    rfl
  rw [he, decode_fields_cons]
  simp only [BboPacket.mk.injEq]
  exact ⟨trivial, le32_readback bp hbp, le32_readback bs hbs,
    le32_readback ap hap, le32_readback aq haq, le32_readback sp hsp,
    le32_readback t1 h1, le32_readback t2 h2, le32_readback t3 h3,
    le32_readback t4 h4, le32_readback pd hpd⟩

/-- Witness for C8 at a concrete well-formed packet. -/
theorem encode_decode_roundtrip_witness :
    decode_fields (encode
      { symbol := [84, 69, 83, 84, 0, 0, 0, 0], bid_price := 10050,
        bid_size := 100, ask_price := 10055, ask_size := 200,
        spread := 5, ts_t1 := 1000, ts_t2 := 1010, ts_t3 := 1020,
        ts_t4 := 1100, padding := SENTINEL }) =
      { symbol := [84, 69, 83, 84, 0, 0, 0, 0], bid_price := 10050,
        bid_size := 100, ask_price := 10055, ask_size := 200,
        spread := 5, ts_t1 := 1000, ts_t2 := 1010, ts_t3 := 1020,
        ts_t4 := 1100, padding := SENTINEL } := by
  exact encode_decode_roundtrip
    { symbol := [84, 69, 83, 84, 0, 0, 0, 0], bid_price := 10050,
      bid_size := 100, ask_price := 10055, ask_size := 200,
      spread := 5, ts_t1 := 1000, ts_t2 := 1010, ts_t3 := 1020,
      ts_t4 := 1100, padding := SENTINEL }
    (by unfold WfPacket; decide)

end BboReceiver

namespace BboReceiver

/-- Counterexample to claim C6: on `overflowFrame` the product
`cycles * clock_period_ns` overflows 32 bits (`2^30 * 4 = 2^32`), yet
decode attaches no warning at all — in particular no `LatencyOverflow` —
and the latency report silently carries the wrapped nanosecond value
`0`. -/
theorem latency_overflow_counterexample :
    decode overflowFrame =
      Except.ok (decode_fields overflowFrame, []) ∧
    compute_latency (decode_fields overflowFrame) =
      some { cycles := 1073741824, nanoseconds := 0 } ∧
    2 ^ 32 ≤ 1073741824 * clock_period_ns := by decide

/-- Claim C6 (amended): overflow in the latency multiplication is NOT
surfaced.  No decoded record ever carries a `LatencyOverflow` warning
(the validator's only warning is `BadSentinel`), and whenever a latency
report is produced its nanosecond value is the product
`cycles * clock_period_ns` reduced modulo `2^32` — a silently wrapped
value on overflow, though never a crash (the computation is total). -/
theorem latency_overflow_silent (p : BboPacket) :
    Warning.LatencyOverflow ∉ validate p ∧
    (∀ r, compute_latency p = some r →
      r.nanoseconds = r.cycles * clock_period_ns % 2 ^ 32) := by
  constructor
  · unfold validate
    split
    · simp
    · simp
  · intro r hr
    unfold compute_latency at hr
    split at hr
    · simp only [Option.some.injEq] at hr
      rw [← hr]
      unfold mul32
      rfl
    · exact absurd hr (by simp)

/-- Witness for C6 (amended) at the overflowing frame: no
`LatencyOverflow` warning, and the wrapped nanosecond value `0` equals
the product modulo `2^32`. -/
theorem latency_overflow_silent_witness :
    Warning.LatencyOverflow ∉ validate (decode_fields overflowFrame) ∧
    (0 : Nat) = 1073741824 * clock_period_ns % 2 ^ 32 := by
  have h := latency_overflow_silent (decode_fields overflowFrame)
  exact ⟨h.1, h.2 { cycles := 1073741824, nanoseconds := 0 } (by decide)⟩

/-- Counterexample to claim C7: this frame's symbol contains the byte
`0x01`, which is nonzero and outside `[0x20, 0x7E]`, yet decode emits no
warning at all — in particular no `NonPrintableSymbol`. -/
theorem non_printable_symbol_counterexample :
    decode nonPrintableFrame =
      Except.ok (decode_fields nonPrintableFrame, []) ∧
    (decode_fields nonPrintableFrame).symbol.getD 0 0 = 1 ∧
    (1 : Nat) ≠ 0 ∧ (1 : Nat) < 32 ∧
    Warning.NonPrintableSymbol ∉
      validate (decode_fields nonPrintableFrame) := by decide

/-- Claim C7 (amended): the code never emits a `NonPrintableSymbol`
warning for any record — `validate` only ever produces `BadSentinel` —
and non-printable bytes are handled exclusively by the display layer:
`hexdump` renders a byte as itself when it lies in `[0x20, 0x7E]` and
substitutes `.` (byte 46) otherwise. -/
theorem non_printable_symbol_never_warned (p : BboPacket) (b : Nat) :
    Warning.NonPrintableSymbol ∉ validate p ∧
    (b < 32 ∨ 126 < b → displayChar b = 46) ∧
    (32 ≤ b → b ≤ 126 → displayChar b = b) := by
  refine ⟨?_, ?_, ?_⟩
  · unfold validate
    split
    · simp
    · simp
  · intro hb
    unfold displayChar
    rw [if_neg (by omega)]
  · intro hlo hhi
    unfold displayChar
    rw [if_pos (by omega)]

/-- Witness for C7 (amended): on the non-printable frame no
`NonPrintableSymbol` warning appears, the byte `0x01` displays as `.`,
and the printable byte `A` (65) displays as itself. -/
theorem non_printable_symbol_never_warned_witness :
    Warning.NonPrintableSymbol ∉
      validate (decode_fields nonPrintableFrame) ∧
    displayChar 1 = 46 ∧ displayChar 65 = 65 := by
  have ha := non_printable_symbol_never_warned
    (decode_fields nonPrintableFrame) 1
  have hb := non_printable_symbol_never_warned
    (decode_fields nonPrintableFrame) 65
  exact ⟨ha.1, ha.2.1 (by decide), hb.2.2 (by decide) (by decide)⟩

/-- Claim C9: determinism and statelessness.  The embedded decode path
is a function of the input buffer alone — the C code's packet handling
(`print_bbo` and the struct reinterpretation) reads no global, static or
otherwise shared state — so two invocations on equal buffers agree in
every observable: the decode result (fields and warnings) and the
latency report. -/
theorem decode_deterministic (b1 b2 : List Nat) (h : b1 = b2) :
    decode b1 = decode b2 ∧
    compute_latency (decode_fields b1) =
      compute_latency (decode_fields b2) := by
  subst h
  exact ⟨rfl, rfl⟩

/-- Witness for C9 at a concrete buffer. -/
theorem decode_deterministic_witness :
    decode (List.replicate 48 7) = decode (List.replicate 48 7) ∧
    compute_latency (decode_fields (List.replicate 48 7)) =
      compute_latency (decode_fields (List.replicate 48 7)) :=
  decode_deterministic (List.replicate 48 7) (List.replicate 48 7) rfl

/-- Claim C10: validation and latency computation never modify the
record.  Whatever decode returns for a 48-byte buffer, the packet
component is exactly the field codec's output, whichever warnings fired:
the sentinel check and the latency calculation only read the decoded
fields (the latency report is a separate value) and change none of
them. -/
theorem decode_frame_effect (buf : List Nat) (h : buf.length = 48) :
    ∀ p ws, decode buf = Except.ok (p, ws) → p = decode_fields buf := by
  intro p ws hok
  unfold decode BBO_PACKET_SIZE at hok
  rw [if_neg (by omega)] at hok
  simp only [Except.ok.injEq, Prod.mk.injEq] at hok
  exact hok.1.symm

/-- Witness for C10 at a concrete buffer with a failing sentinel (so a
warning fires) whose packet component is still the codec's output. -/
theorem decode_frame_effect_witness :
    decode_fields (List.replicate 48 1) =
      decode_fields (List.replicate 48 1) :=
  decode_frame_effect (List.replicate 48 1) (by decide)
    (decode_fields (List.replicate 48 1))
    (validate (decode_fields (List.replicate 48 1))) (by decide)

end BboReceiver
